import Mathlib

/-!
Verification development for the dual FLIR camera-control repository.

The repository drives a pan-tilt-zoom camera over a CGI-style HTTP API.
This file gives a shallow embedding of its session-authenticated command
dispatch layer:

* the static command registry and typed parameter coercion of
  src/constants.py and src/script/camera_control.py,
* the query builder (build_query) with Python dict-update semantics,
* the session manager and dispatcher of the two backends,
  src/classes/CameraControlAPI.py (direct HTTP) and
  src/classes/CameraControl.py (wrapped external scripts).

External effects (wall-clock time, HTTP exchanges, subprocess runs) are
modelled by explicit parameters: the current time is a rational number
passed in, and each family of external calls is an oracle indexed by the
number of calls made so far, whose outcomes are the case splits the
source code actually branches on (transport error vs. HTTP error vs.
body; nonzero exit status vs. exception vs. captured stdout).  States
carry call counters so that theorems can speak about the exact number of
transport calls and authentication exchanges a dispatch performs.
-/

/-! ## Python string primitives

Small executable models of the Python string operations the source uses
(str.strip, str.lower, truthiness of optional strings). -/

/-- Python str.strip(): remove whitespace from both ends. -/
def pyStrip (s : String) : String :=
  String.mk (((s.toList.dropWhile Char.isWhitespace).reverse.dropWhile Char.isWhitespace).reverse)

/-- Python str.lower() restricted to the ASCII inputs the sources use. -/
def pyLower (s : String) : String :=
  String.mk (s.toList.map Char.toLower)

/-- Truthiness of an `Optional[str]` in Python: None and the empty string
are falsy, every other string is truthy. -/
def isTruthy : Option String → Bool
  | none => false
  | some s => decide (s ≠ "")

/-! ## Association lists with Python dict semantics -/

/-- Lookup in an association list (first match wins, as in a Python dict,
whose keys are unique). -/
def alookup (k : String) : List (String × String) → Option String
  | [] => none
  | p :: rest => if p.1 = k then some p.2 else alookup k rest

/-- Python `d[k] = v`: replace the value in place if the key exists
(keeping its position), otherwise append the pair at the end. -/
def dictInsert : List (String × String) → String → String → List (String × String)
  | [], k, v => [(k, v)]
  | p :: rest, k, v => if p.1 = k then (k, v) :: rest else p :: dictInsert rest k v

/-- Python `d.update(u)`: insert the pairs of u left to right. -/
def dictUpdate (q u : List (String × String)) : List (String × String) :=
  u.foldl (fun acc p => dictInsert acc p.1 p.2) q

/-! ## Numeric parsing and rendering (src/script/camera_control.py)

`coerce_param_value` calls Python int()/float() on the raw string and
re-renders a float with the %.10g format.  The parsers below accept the
finite decimal literal grammar (optional sign, digits, optional decimal
point, optional exponent); the float value is represented exactly as a
signed decimal mantissa/exponent pair, and the %.10g rendering
(round to 10 significant digits, strip trailing zeros, fixed or
scientific notation) is implemented on that exact representation. -/

/-- Decimal digits of a character list interpreted as a natural number. -/
def digitsToNat (ds : List Char) : ℕ :=
  ds.foldl (fun a c => a * 10 + (c.toNat - 48)) 0

/-- Leading sign of a numeric literal: returns (isNegative, rest). -/
def parseSign : List Char → Bool × List Char
  | '-' :: rest => (true, rest)
  | '+' :: rest => (false, rest)
  | cs => (false, cs)

/-- Python int(value) on a string: optional surrounding whitespace, an
optional sign and a nonempty digit run (exotic forms such as underscore
separators are outside the modelled grammar; no source input uses them). -/
def parseIntPy (s : String) : Option ℤ :=
  let cs := (pyStrip s).toList
  let sr := parseSign cs
  let ds := sr.2.takeWhile Char.isDigit
  let rest := sr.2.dropWhile Char.isDigit
  if ds.isEmpty ∨ ¬rest.isEmpty then none
  else some (if sr.1 then -(digitsToNat ds : ℤ) else (digitsToNat ds : ℤ))

/-- Exponent tail of a float literal, after the mantissa has produced the
pair (m, e) meaning the value ±(m * 10 ^ e). -/
def parseExpTail (neg : Bool) (m : ℕ) (e : ℤ) : List Char → Option (Bool × ℕ × ℤ)
  | [] => some (neg, m, e)
  | c :: cs =>
    if c = 'e' ∨ c = 'E' then
      let sr := parseSign cs
      let eds := sr.2.takeWhile Char.isDigit
      let rest := sr.2.dropWhile Char.isDigit
      if eds.isEmpty ∨ ¬rest.isEmpty then none
      else some (neg, m, e + (if sr.1 then -(digitsToNat eds : ℤ) else (digitsToNat eds : ℤ)))
    else none

/-- Python float(value) on a finite decimal literal, returned exactly as
(sign, mantissa, exponent) with value = ±(mantissa * 10 ^ exponent). -/
def parseFloatPy (s : String) : Option (Bool × ℕ × ℤ) :=
  let cs := (pyStrip s).toList
  let sr := parseSign cs
  let intPart := sr.2.takeWhile Char.isDigit
  let cs1 := sr.2.dropWhile Char.isDigit
  match cs1 with
  | '.' :: cs2 =>
    let fracPart := cs2.takeWhile Char.isDigit
    let cs3 := cs2.dropWhile Char.isDigit
    if intPart.isEmpty ∧ fracPart.isEmpty then none
    else parseExpTail sr.1 (digitsToNat (intPart ++ fracPart)) (-(fracPart.length : ℤ)) cs3
  | _ =>
    if intPart.isEmpty then none
    else parseExpTail sr.1 (digitsToNat intPart) 0 cs1

/-- Remove trailing zero digits (used by the %g format). -/
def stripZeros (ds : List Char) : List Char :=
  (ds.reverse.dropWhile (fun c => c = '0')).reverse

/-- Decimal digit characters of a natural number. -/
def natDigits (n : ℕ) : List Char :=
  (toString n).toList

/-- Number of decimal digits of a natural number. -/
def numDigits (n : ℕ) : ℕ :=
  (natDigits n).length

/-- Integer division rounded to nearest, ties to even. -/
def roundHalfEvenDiv (a b : ℕ) : ℕ :=
  let q := a / b
  let r := a % b
  if 2 * r < b then q
  else if 2 * r > b then q + 1
  else if q % 2 = 0 then q else q + 1

/-- The C/Python "%.10g" format applied to the exact decimal value
±(m * 10 ^ e): round to 10 significant digits, then use fixed notation
when the decimal exponent X satisfies -4 ≤ X < 10 and scientific
notation otherwise, stripping trailing zeros in both cases. -/
def render10g (neg : Bool) (m : ℕ) (e : ℤ) : String :=
  if m = 0 then (if neg then "-0" else "0")
  else
    let D := numDigits m
    let X0 : ℤ := (D : ℤ) - 1 + e
    let M0 := if D ≤ 10 then m * 10 ^ (10 - D) else roundHalfEvenDiv m (10 ^ (D - 10))
    let M := if M0 = 10 ^ 10 then 10 ^ 9 else M0
    let X := if M0 = 10 ^ 10 then X0 + 1 else X0
    let S := natDigits M
    let sign := if neg then "-" else ""
    if -4 ≤ X ∧ X < 10 then
      if 0 ≤ X then
        let ip := S.take (X.toNat + 1)
        let fp := stripZeros (S.drop (X.toNat + 1))
        if fp.isEmpty then sign ++ String.mk ip
        else sign ++ String.mk ip ++ "." ++ String.mk fp
      else
        let zeros := List.replicate ((-X).toNat - 1) '0'
        sign ++ "0." ++ String.mk (zeros ++ stripZeros S)
    else
      let d1 := S.take 1
      let dr := stripZeros (S.drop 1)
      let mant := if dr.isEmpty then String.mk d1 else String.mk d1 ++ "." ++ String.mk dr
      let eabs := X.natAbs
      let estr := if eabs < 10 then "0" ++ toString eabs else toString eabs
      sign ++ mant ++ "e" ++ (if X < 0 then "-" else "+") ++ estr

/-- Count of digit characters in a string (significant digits of a
rendered numeral that has no exponent part and no leading zeros). -/
def digitCount (s : String) : ℕ :=
  (s.toList.filter Char.isDigit).length

/-! ## Command registry (src/constants.py) -/

/-- Declared scalar type of a dynamic parameter: the runtime converter
object stored under the "type" key of a parameter spec (float, int, str
or bool), as a closed enumeration. -/
inductive PType where
  | pfloat
  | pint
  | pstr
  | pbool
deriving DecidableEq, Repr

/-- One entry of a command's "params" list: name, declared type
(spec.get("type", str)), required flag (spec.get("required", True)) and
optional default.  A default value is stored as its Python str()
rendering, which is exactly what both resolution loops put on the wire
(`coerced[name] = str(spec["default"])`).  The "help" strings of the
source table are documentation only and are not modelled. -/
structure ParamSpec where
  name : String
  ptype : PType
  required : Bool
  default : Option String
deriving DecidableEq, Repr

/-- The dataclass ParsedCommand of src/script/camera_control.py. -/
structure ParsedCommand where
  name : String
  action : String
  description : String
  static_params : List (String × String)
  param_specs : List ParamSpec
deriving DecidableEq, Repr

/-- One value of the CAMERA_COMMANDS table: wire action, description,
static parameters and dynamic parameter specs. -/
structure CommandEntry where
  action : String
  description : String
  static_params : List (String × String)
  params : List ParamSpec
deriving DecidableEq, Repr

/-- The fixed TOKEN_OVERRIDE_PARAMS of src/constants.py. -/
def TOKEN_OVERRIDE_PARAMS : List (String × String) :=
  [("tokenoverride", "1"), ("_", "0")]

/-- The CAMERA_COMMANDS registry of src/constants.py, in declaration
order.  Every parameter of the table has required = true and no default
(neither key appears in the source dictionaries, and the source reads
them with spec.get("required", True) and "default" in spec). -/
def CAMERA_COMMANDS : List (String × CommandEntry) :=
  [ ("get_zoom",
     ⟨"DLTVFOVMagnificationGet", "Return the current zoom magnification.", [], []⟩),
    ("get_zoom_fov",
     ⟨"DLTVZoomDegreesGet", "Return the current zoom field-of-view in degrees.", [], []⟩),
    ("set_zoom",
     ⟨"DLTVFOVMagnificationSet", "Set zoom magnification to a specific value.", [],
      [⟨"Magnification", .pfloat, true, none⟩]⟩),
    ("auto_focus",
     ⟨"DLTVAutoFocusPush", "Trigger an autofocus operation.", [], []⟩),
    ("get_speed",
     ⟨"PTSpeedGet", "Fetch the current azimuth/elevation speed configuration.", [], []⟩),
    ("set_speed",
     ⟨"PTSpeedModeSet", "Update azimuth and elevation speed settings.", [],
      [⟨"Azimuth_Speed", .pint, true, none⟩, ⟨"Elevation_Speed", .pint, true, none⟩]⟩),
    ("get_position",
     ⟨"PTAzimuthElevationGet", "Retrieve the current azimuth/elevation angles.", [], []⟩),
    ("center",
     ⟨"PTAzimuthElevationOnScreenSet", "Center the camera on a screen coordinate (X/Y).",
      [("Active_cam", "0"), ("Cam_type", "4"), ("Cam_id", "0")],
      [⟨"ScreenX", .pfloat, true, none⟩, ⟨"ScreenY", .pfloat, true, none⟩]⟩) ]

/-- Lookup of a registry entry by key, mirroring CAMERA_COMMANDS.get. -/
def registryGet (k : String) : List (String × CommandEntry) → Option CommandEntry
  | [] => none
  | p :: rest => if p.1 = k then some p.2 else registryGet k rest

/-! ## Error taxonomy

All the caller errors of the sources are Python ValueError with a
descriptive message; the constructors below carry the data those
messages interpolate. -/

/-- Caller/configuration errors raised by load_command,
coerce_param_value and the parameter resolution loop. -/
inductive ParamErr where
  | unknownCommand (name : String) (available : List String)
  | missing (param : String) (command : String)
  | unexpected (params : List String) (command : String)
  | invalidBool (param : String) (accepted : List String)
  | invalidConvert (param value typename : String)
deriving DecidableEq, Repr

/-- load_command of src/script/camera_control.py: look the name up in
CAMERA_COMMANDS and build a ParsedCommand, failing with an
unknown-command error listing the available (sorted) names. -/
def load_command (command_name : String) : Except ParamErr ParsedCommand :=
  match registryGet command_name CAMERA_COMMANDS with
  | none =>
    .error (.unknownCommand command_name
      ["auto_focus", "center", "get_position", "get_speed",
       "get_zoom", "get_zoom_fov", "set_speed", "set_zoom"])
  | some entry =>
    .ok ⟨command_name, entry.action, entry.description, entry.static_params, entry.params⟩

/-! ## Parameter coercion (src/script/camera_control.py, lines 87-110) -/

/-- The fixed truthy inputs of boolean coercion. -/
def truthySet : List String :=
  ["1", "true", "t", "yes", "y", "on"]

/-- The fixed falsy inputs of boolean coercion. -/
def falsySet : List String :=
  ["0", "false", "f", "no", "n", "off"]

/-- sorted(truthy | falsy), the accepted inputs named by the boolean
error message. -/
def acceptedBoolInputs : List String :=
  ["0", "1", "f", "false", "n", "no", "off", "on", "t", "true", "y", "yes"]

/-- coerce_param_value: convert one caller-supplied raw string to its
wire encoding according to the declared type of the parameter spec.
Booleans are matched case-insensitively against the fixed truthy and
falsy sets; int/float are parsed natively, a parse failure names the
target type; a parsed float is re-rendered with the %.10g format; a
string passes through unchanged. -/
def coerce_param_value (name value : String) (sp : ParamSpec) : Except ParamErr String :=
  match sp.ptype with
  | .pbool =>
    if pyLower value ∈ truthySet then .ok "1"
    else if pyLower value ∈ falsySet then .ok "0"
    else .error (.invalidBool name acceptedBoolInputs)
  | .pint =>
    match parseIntPy value with
    | some n => .ok (toString n)
    | none => .error (.invalidConvert name value "int")
  | .pfloat =>
    match parseFloatPy value with
    | some t => .ok (render10g t.1 t.2.1 t.2.2)
    | none => .error (.invalidConvert name value "float")
  | .pstr => .ok value

/-! ## Parameter resolution

The loop of CameraControlAPI.execute (lines 108-127), identical in
behaviour to the loop of camera_control.main (lines 258-282): iterate
the declared specs in order, failing on a missing required parameter
without default, substituting (the str() rendering of) a default for an
absent optional parameter, coercing a supplied value; afterwards any
supplied key that was never declared is an unexpected-parameter error. -/

/-- Names of the declared parameters of a command. -/
def declaredNames (pc : ParsedCommand) : List String :=
  pc.param_specs.map (fun sp => sp.name)

/-- The per-spec iteration of the resolution loop, accumulating coerced
pairs in declaration order. -/
def resolveLoop (cmdName : String) (supplied : List (String × String)) :
    List ParamSpec → List (String × String) → Except ParamErr (List (String × String))
  | [], acc => .ok acc
  | sp :: rest, acc =>
    match alookup sp.name supplied with
    | none =>
      if sp.required = true ∧ sp.default = none then .error (.missing sp.name cmdName)
      else
        match sp.default with
        | some d => resolveLoop cmdName supplied rest (acc ++ [(sp.name, d)])
        | none => resolveLoop cmdName supplied rest acc
    | some v =>
      match coerce_param_value sp.name v sp with
      | .ok w => resolveLoop cmdName supplied rest (acc ++ [(sp.name, w)])
      | .error e => .error e

/-- The whole resolution pass: the spec iteration first, then the
unexpected-parameter check on the keys that were never declared (the
source reports them as a sorted, deduplicated set; the deduplicated key
list is carried here). -/
def resolve_params (pc : ParsedCommand) (supplied : List (String × String)) :
    Except ParamErr (List (String × String)) :=
  match resolveLoop pc.name supplied pc.param_specs [] with
  | .error e => .error e
  | .ok acc =>
    if ((supplied.map Prod.fst).filter (fun k => k ∉ declaredNames pc)).dedup = []
    then .ok acc
    else .error (.unexpected
      ((supplied.map Prod.fst).filter (fun k => k ∉ declaredNames pc)).dedup pc.name)

/-! ## Query builder (src/script/camera_control.py, lines 113-127) -/

/-- build_query: start from the session token and action name, then
dict-update with the static parameters, then the coerced dynamic
parameters, then (when include_token_params) the fixed override pair. -/
def build_query (command : ParsedCommand) (session : String)
    (dynamic_params : List (String × String)) (include_token_params : Bool) :
    List (String × String) :=
  let q := [("session", session), ("action", command.action)]
  let q := dictUpdate q command.static_params
  let q := dictUpdate q dynamic_params
  if include_token_params then dictUpdate q TOKEN_OVERRIDE_PARAMS else q

/-! ## Direct-HTTP backend (src/classes/CameraControlAPI.py) -/

namespace CameraControlAPI

/-- Mutable instance state of CameraControlAPI: session_id and
_last_auth, plus two instrumentation counters (number of authentication
exchanges performed and number of issue_request transport calls made)
that let theorems count external calls exactly. -/
structure State where
  session_id : Option String
  last_auth : ℚ
  authRuns : ℕ
  reqRuns : ℕ
deriving DecidableEq, Repr

/-- Outcome of one authentication exchange (urlopen on the
SERVERWhoAmI action), as the source branches on it: transport error
(HTTPError/URLError), a body that is not JSON, or a parsed body whose
SERVERWhoAmI.Id field is absent or a string. -/
inductive AuthOutcome where
  | transportErr (msg : String)
  | badJson (msg : String)
  | idValue (id : Option String)
deriving DecidableEq, Repr

/-- _session_expired: (time.time() - self._last_auth) > self.session_timeout. -/
def session_expired (now : ℚ) (st : State) (timeout : ℚ) : Bool :=
  decide (now - st.last_auth > timeout)

/-- invalidate_session: clear the token and reset the issue time. -/
def invalidate_session (st : State) : State :=
  { st with session_id := none, last_auth := 0 }

/-- authenticate(force): early-return success when not forced, a token
is present and the session is not expired; otherwise perform the
exchange, invalidating the session and failing on transport error,
malformed JSON, or a missing/empty Id, and storing the token with the
current time as issue time on success. -/
def authenticate (force : Bool) (now timeout : ℚ) (env : ℕ → AuthOutcome) (st : State) :
    Bool × State :=
  if force = false ∧ isTruthy st.session_id = true ∧ session_expired now st timeout = false then
    (true, st)
  else
    match env st.authRuns with
    | .transportErr _ => (false, invalidate_session { st with authRuns := st.authRuns + 1 })
    | .badJson _ => (false, invalidate_session { st with authRuns := st.authRuns + 1 })
    | .idValue id =>
      let st1 := { st with authRuns := st.authRuns + 1 }
      match id with
      | none => (false, invalidate_session st1)
      | some s =>
        if s = "" then (false, invalidate_session st1)
        else (true, { st1 with session_id := some s, last_auth := now })

/-- A command response: the body parsed as JSON, or (when the body is
not parseable) the raw body under the sentinel "raw" key.  The payload
itself is abstract; no claim inspects it. -/
inductive RespBody where
  | jsonDict (payload : String)
  | rawDict (payload : String)
deriving DecidableEq, Repr

/-- Outcome of one issue_request transport call, as the source branches
on it.  The oracle receives the query that was sent. -/
inductive ReqOutcome where
  | httpError (code : ℕ) (reason : String)
  | urlError (reason : String)
  | response (body : RespBody)
deriving DecidableEq, Repr

/-- issue_request of src/script/camera_control.py: HTTPError and
URLError are wrapped into RuntimeError messages, any body is returned
(parsed, or raw under the sentinel key). -/
def issue_request (env : ℕ → List (String × String) → ReqOutcome) (idx : ℕ)
    (query : List (String × String)) : Except String RespBody :=
  match env idx query with
  | .httpError code reason =>
    .error ("HTTP error " ++ toString code ++ " from camera: " ++ reason)
  | .urlError reason => .error ("Failed to reach camera: " ++ reason)
  | .response b => .ok b

/-- Failure modes of execute: the initial authenticate() returning
False (RuntimeError), a ValueError from load_command or parameter
resolution, or a RuntimeError propagated from issue_request. -/
inductive ExecErr where
  | authFailed
  | value (e : ParamErr)
  | transport (msg : String)
deriving DecidableEq, Repr

/-- execute(command_name, **params): authenticate without force (abort
on failure), load the command, resolve and coerce the parameters, build
the query with overrides included, and make exactly one issue_request
call whose outcome — error or body — is returned as is.  The source has
no retry around the transport call: a RuntimeError from issue_request
propagates to the caller. -/
def execute (command_name : String) (params : List (String × String)) (now timeout : ℚ)
    (authEnv : ℕ → AuthOutcome) (reqEnv : ℕ → List (String × String) → ReqOutcome)
    (st : State) : Except ExecErr RespBody × State :=
  match authenticate false now timeout authEnv st with
  | (false, st1) => (.error .authFailed, st1)
  | (true, st1) =>
    match load_command command_name with
    | .error e => (.error (.value e), st1)
    | .ok pc =>
      match resolve_params pc params with
      | .error e => (.error (.value e), st1)
      | .ok coerced =>
        let query := build_query pc (Option.getD st1.session_id "") coerced true
        let st2 := { st1 with reqRuns := st1.reqRuns + 1 }
        match issue_request reqEnv st1.reqRuns query with
        | .error msg => (.error (.transport msg), st2)
        | .ok body => (.ok body, st2)

end CameraControlAPI

/-! ## Subprocess-script backend (src/classes/CameraControl.py) -/

namespace CameraControl

/-- Mutable instance state of CameraControl: session_id and
last_auth_time, plus counters for authentication-script runs and
command-script runs. -/
structure State where
  session_id : Option String
  last_auth_time : ℚ
  authRuns : ℕ
  cmdRuns : ℕ
deriving DecidableEq, Repr

/-- SESSION_TIMEOUT = 120.0 (fixed in this backend). -/
def SESSION_TIMEOUT : ℚ := 120

/-- Outcome of one run of the authentication script: an exception
during Popen/communicate, a nonzero exit status with some stderr, or a
zero exit status with the captured stdout. -/
inductive AuthOutcome where
  | exc (msg : String)
  | scriptFail (stderr : String)
  | ok (stdout : String)
deriving DecidableEq, Repr

/-- _is_session_expired: (time.time() - self.last_auth_time) > self.SESSION_TIMEOUT. -/
def session_expired (now : ℚ) (st : State) : Bool :=
  decide (now - st.last_auth_time > SESSION_TIMEOUT)

/-- authenticate(force_auth): early-return success when not forced, a
token is present and the session is not expired; otherwise run the
authentication script.  On a nonzero exit status or an exception the
token is set to None (the issue time is left as it was); on success the
stripped stdout becomes the token — the empty string is a failure that
leaves the empty token stored — and the issue time is set to now. -/
def authenticate (force : Bool) (now : ℚ) (env : ℕ → AuthOutcome) (st : State) :
    Bool × State :=
  if force = false ∧ isTruthy st.session_id = true ∧ session_expired now st = false then
    (true, st)
  else
    match env st.authRuns with
    | .scriptFail _ => (false, { st with session_id := none, authRuns := st.authRuns + 1 })
    | .exc _ => (false, { st with session_id := none, authRuns := st.authRuns + 1 })
    | .ok out =>
      let sid := pyStrip out
      if sid = "" then
        (false, { st with session_id := some sid, authRuns := st.authRuns + 1 })
      else
        (true, { st with session_id := some sid, last_auth_time := now,
                         authRuns := st.authRuns + 1 })

/-- The stdout of a successful command-script run, abstracted to the
three cases the source distinguishes: no brace character anywhere
(find returns -1), a brace present but json.loads raising, or a parsed
payload with the optional Azimuth/Elevation fields. -/
inductive ScriptStdout where
  | noBrace
  | badJson
  | payload (az el : Option ℚ)
deriving DecidableEq, Repr

/-- Outcome of one command-script run: CalledProcessError (check=True
and a nonzero exit status), any other exception, or captured stdout. -/
inductive RunOutcome where
  | procError (stderr : String)
  | exc (msg : String)
  | ok (out : ScriptStdout)
deriving DecidableEq, Repr

/-- The body of the retry loop of get_degree_pos, over the remaining
attempt indices of range(2).  A stdout with no brace is skipped with
continue; a JSON error or unexpected exception returns the tuple
(None, None); a parsed payload returns its fields; a CalledProcessError
on attempt 0 forces reauthentication and continues (aborting with
(None, None) when the forced reauthentication fails), and on the last
attempt returns (None, None).  Falling off the end of the loop returns
the bare Python None, modelled as the outer none. -/
def gpLoop (now : ℚ) (authEnv : ℕ → AuthOutcome) (degEnv : ℕ → RunOutcome) :
    List ℕ → State → Option (Option ℚ × Option ℚ) × State
  | [], st => (none, st)
  | attempt :: rest, st =>
    match degEnv st.cmdRuns with
    | .ok .noBrace => gpLoop now authEnv degEnv rest { st with cmdRuns := st.cmdRuns + 1 }
    | .ok .badJson => (some (none, none), { st with cmdRuns := st.cmdRuns + 1 })
    | .ok (.payload az el) => (some (az, el), { st with cmdRuns := st.cmdRuns + 1 })
    | .exc _ => (some (none, none), { st with cmdRuns := st.cmdRuns + 1 })
    | .procError _ =>
      if attempt = 0 then
        match authenticate true now authEnv { st with cmdRuns := st.cmdRuns + 1 } with
        | (false, st2) => (some (none, none), st2)
        | (true, st2) => gpLoop now authEnv degEnv rest st2
      else
        (some (none, none), { st with cmdRuns := st.cmdRuns + 1 })

/-- get_degree_pos: proactive session check (returning (None, None)
when it fails), then the two-attempt retry loop. -/
def get_degree_pos (now : ℚ) (authEnv : ℕ → AuthOutcome) (degEnv : ℕ → RunOutcome)
    (st : State) : Option (Option ℚ × Option ℚ) × State :=
  match authenticate false now authEnv st with
  | (false, st1) => (some (none, none), st1)
  | (true, st1) => gpLoop now authEnv degEnv [0, 1] st1

/-- The body of the retry loop of move_camera_to_absolute_pos: a
successful run returns True immediately, an unexpected exception
returns False, a CalledProcessError on attempt 0 forces
reauthentication and continues (False when the forced reauthentication
fails), and on the last attempt returns False. -/
def moveLoop (now : ℚ) (authEnv : ℕ → AuthOutcome) (moveEnv : ℕ → RunOutcome) :
    List ℕ → State → Option Bool × State
  | [], st => (none, st)
  | attempt :: rest, st =>
    match moveEnv st.cmdRuns with
    | .ok _ => (some true, { st with cmdRuns := st.cmdRuns + 1 })
    | .exc _ => (some false, { st with cmdRuns := st.cmdRuns + 1 })
    | .procError _ =>
      if attempt = 0 then
        match authenticate true now authEnv { st with cmdRuns := st.cmdRuns + 1 } with
        | (false, st2) => (some false, st2)
        | (true, st2) => moveLoop now authEnv moveEnv rest st2
      else
        (some false, { st with cmdRuns := st.cmdRuns + 1 })

/-- move_camera_to_absolute_pos: proactive session check (False on
failure), then the two-attempt retry loop.  The target coordinates and
speeds are formatted into the script arguments and do not influence the
control flow; the script outcome oracle abstracts the actual run. -/
def move_camera_to_absolute_pos (_target_az _target_el _speed_az _speed_el : ℚ)
    (now : ℚ) (authEnv : ℕ → AuthOutcome) (moveEnv : ℕ → RunOutcome) (st : State) :
    Option Bool × State :=
  match authenticate false now authEnv st with
  | (false, st1) => (some false, st1)
  | (true, st1) => moveLoop now authEnv moveEnv [0, 1] st1

end CameraControl

/-! ## Concrete states and oracles used by witnesses and counterexamples -/

/-- An API-backend state holding a fresh, valid session at time 100. -/
def apiFresh : CameraControlAPI.State :=
  ⟨some "TOK", 100, 0, 0⟩

/-- An API authentication oracle that always succeeds with a new token. -/
def apiAuthOk : ℕ → CameraControlAPI.AuthOutcome :=
  fun _ => .idValue (some "NEWTOK")

/-- A transport oracle failing on the first call and succeeding on
every later call. -/
def reqFailThenOk : ℕ → List (String × String) → CameraControlAPI.ReqOutcome :=
  fun n _ => if n = 0 then .urlError "connection refused" else .response (.jsonDict "ok")

/-- A transport oracle failing on every call. -/
def reqFailAlways : ℕ → List (String × String) → CameraControlAPI.ReqOutcome :=
  fun _ _ => .urlError "connection refused"

/-- A subprocess-backend state holding a fresh, valid session at time 100. -/
def ccFresh : CameraControl.State :=
  ⟨some "TOK", 100, 0, 0⟩

/-- A subprocess-backend state holding a session issued at time 50. -/
def ccOld : CameraControl.State :=
  ⟨some "OLD", 50, 0, 0⟩

/-- An authentication-script oracle that always succeeds. -/
def ccAuthOk : ℕ → CameraControl.AuthOutcome :=
  fun _ => .ok "NEWTOK"

/-- An authentication-script oracle that always exits nonzero. -/
def ccAuthFail : ℕ → CameraControl.AuthOutcome :=
  fun _ => .scriptFail "denied"

/-- A command-script oracle failing (nonzero exit) on the first run and
returning a parsed payload on every later run. -/
def ccRunFailThenOk : ℕ → CameraControl.RunOutcome :=
  fun n => if n = 0 then .procError "boom" else .ok (.payload (some 1) (some 2))

/-- A command-script oracle failing (nonzero exit) on every run. -/
def ccRunFailAlways : ℕ → CameraControl.RunOutcome :=
  fun _ => .procError "boom"

/-- A command-script oracle whose stdout never contains a brace. -/
def ccRunNoBrace : ℕ → CameraControl.RunOutcome :=
  fun _ => .ok .noBrace

/-- The parameter spec of set_zoom's Magnification, used by concrete
coercion statements. -/
def magSpec : ParamSpec :=
  ⟨"Magnification", .pfloat, true, none⟩

/-- A float-typed parameter that is optional with default str(2.0),
exercising the default-substitution path of the resolution loop. -/
def magDefaultSpec : ParamSpec :=
  ⟨"Magnification", .pfloat, false, some "2.0"⟩

/-- A one-parameter command whose only parameter has a default. -/
def cmdWithDefault : ParsedCommand :=
  ⟨"set_zoom_opt", "DLTVFOVMagnificationSet", "", [], [magDefaultSpec]⟩

/-- A two-parameter command (a float then a string, both required, no
defaults) used to show a coercion failure preempting a missing-required
error. -/
def cmdTwoParams : ParsedCommand :=
  ⟨"two_params", "ACT", "", [], [⟨"a", .pfloat, true, none⟩, ⟨"b", .pstr, true, none⟩]⟩

/-- A boolean parameter spec used by the boolean-coercion statements. -/
def boolSpec (n : String) : ParamSpec :=
  ⟨n, .pbool, true, none⟩

/-- The center command as load_command parses it, used by query-builder
witnesses. -/
def centerCommand : ParsedCommand :=
  ⟨"center", "PTAzimuthElevationOnScreenSet",
   "Center the camera on a screen coordinate (X/Y).",
   [("Active_cam", "0"), ("Cam_type", "4"), ("Cam_id", "0")],
   [⟨"ScreenX", .pfloat, true, none⟩, ⟨"ScreenY", .pfloat, true, none⟩]⟩

/-- Required parameter (no default) absent from a supplied set. -/
def missingReq (sp : ParamSpec) (supplied : List (String × String)) : Prop :=
  sp.required = true ∧ sp.default = none ∧ alookup sp.name supplied = none

instance (sp : ParamSpec) (supplied : List (String × String)) :
    Decidable (missingReq sp supplied) :=
  inferInstanceAs (Decidable (sp.required = true ∧ sp.default = none ∧
    alookup sp.name supplied = none))

/-! ## Lemmas about Python dict update -/

/-- Keys of an association list, in order. -/
def keys (q : List (String × String)) : List String :=
  q.map Prod.fst

lemma alookup_dictInsert_self (q : List (String × String)) (k v : String) :
    alookup k (dictInsert q k v) = some v := by
  induction q with
  | nil => simp [dictInsert, alookup]
  | cons p rest ih =>
    by_cases h : p.1 = k
    · simp [dictInsert, if_pos h, alookup]
    · simp only [dictInsert, if_neg h, alookup, if_neg h, ih]

lemma alookup_dictInsert_ne (q : List (String × String)) (k v j : String) (h : j ≠ k) :
    alookup j (dictInsert q k v) = alookup j q := by
  induction q with
  | nil =>
    simp only [dictInsert, alookup]
    rw [if_neg (fun hh : k = j => h hh.symm)]
  | cons p rest ih =>
    by_cases hp : p.1 = k
    · have hpj : ¬p.1 = j := by rw [hp]; exact fun hh => h hh.symm
      simp only [dictInsert, if_pos hp, alookup]
      rw [if_neg (fun hh : k = j => h hh.symm), if_neg hpj]
    · simp only [dictInsert, if_neg hp, alookup]
      by_cases hj : p.1 = j
      · rw [if_pos hj, if_pos hj]
      · rw [if_neg hj, if_neg hj, ih]

lemma keys_dictInsert (q : List (String × String)) (k v : String) :
    keys (dictInsert q k v) = if k ∈ keys q then keys q else keys q ++ [k] := by
  induction q with
  | nil => simp [dictInsert, keys]
  | cons p rest ih =>
    by_cases h : p.1 = k
    · simp [dictInsert, h, keys]
    · have hk : ¬k = p.1 := fun hh => h hh.symm
      simp only [dictInsert, if_neg h, keys, List.map_cons] at ih ⊢
      rw [ih]
      by_cases hm : k ∈ List.map Prod.fst rest
      · simp [hm, hk]
      · simp [hm, hk]

lemma mem_keys_dictInsert_self (q : List (String × String)) (k v : String) :
    k ∈ keys (dictInsert q k v) := by
  rw [keys_dictInsert]
  by_cases h : k ∈ keys q
  · simp only [if_pos h]; exact h
  · simp [h]

lemma mem_keys_dictInsert_of (q : List (String × String)) (k v j : String)
    (h : j ∈ keys q) : j ∈ keys (dictInsert q k v) := by
  rw [keys_dictInsert]
  by_cases hm : k ∈ keys q
  · simpa [hm] using h
  · simp [hm, h]

lemma mem_keys_dictUpdate_left (u q : List (String × String)) (j : String)
    (h : j ∈ keys q) : j ∈ keys (dictUpdate q u) := by
  induction u generalizing q with
  | nil => simpa [dictUpdate] using h
  | cons p rest ih =>
    have hq : dictUpdate q (p :: rest) = dictUpdate (dictInsert q p.1 p.2) rest := rfl
    rw [hq]
    exact ih _ (mem_keys_dictInsert_of _ _ _ _ h)

lemma mem_keys_dictUpdate_right (u q : List (String × String)) (j : String)
    (h : j ∈ keys u) : j ∈ keys (dictUpdate q u) := by
  induction u generalizing q with
  | nil => simp [keys] at h
  | cons p rest ih =>
    have hq : dictUpdate q (p :: rest) = dictUpdate (dictInsert q p.1 p.2) rest := rfl
    rw [hq]
    rcases List.mem_cons.mp h with h | h
    · exact mem_keys_dictUpdate_left _ _ _ (h ▸ mem_keys_dictInsert_self _ _ _)
    · exact ih _ h

lemma alookup_dictUpdate_not_mem (u q : List (String × String)) (k : String)
    (h : k ∉ keys u) : alookup k (dictUpdate q u) = alookup k q := by
  induction u generalizing q with
  | nil => simp [dictUpdate]
  | cons p rest ih =>
    have hq : dictUpdate q (p :: rest) = dictUpdate (dictInsert q p.1 p.2) rest := rfl
    have h1 : ¬k = p.1 := fun hh => h (by simp [keys, hh])
    have h2 : k ∉ keys rest := fun hh => h (by simp [keys] at hh ⊢; right; exact hh)
    rw [hq, ih _ h2, alookup_dictInsert_ne _ _ _ _ h1]

lemma alookup_dictUpdate_nodup (u q : List (String × String)) (k v : String)
    (hnd : (keys u).Nodup) (h : alookup k u = some v) :
    alookup k (dictUpdate q u) = some v := by
  induction u generalizing q with
  | nil => simp [alookup] at h
  | cons p rest ih =>
    have hq : dictUpdate q (p :: rest) = dictUpdate (dictInsert q p.1 p.2) rest := rfl
    have hnd1 : p.1 ∉ keys rest ∧ (keys rest).Nodup := by
      simpa [keys] using hnd
    by_cases hp : p.1 = k
    · rw [alookup, if_pos hp] at h
      rw [hq, alookup_dictUpdate_not_mem _ _ _ (hp ▸ hnd1.1), hp,
        alookup_dictInsert_self]
      exact congrArg some (Option.some.inj h)
    · rw [alookup, if_neg hp] at h
      rw [hq]
      exact ih _ hnd1.2 h

lemma truthy_falsy_disjoint (x : String) (h : x ∈ falsySet) : x ∉ truthySet := by
  fin_cases h <;> decide

/-! ## Claim theorems -/

/-- Claim C5: build_query merges (1) session token and action name,
(2) the command's static parameters, (3) the coerced dynamic
parameters, (4) the fixed override pair (tokenoverride=1, _=0) last;
the override values win any key collision, a dynamic parameter not
named like an override keeps its value, and the result contains the
session and action keys and every static, dynamic and override key. -/
theorem c5_build_query_merge (cmd : ParsedCommand) (session : String)
    (dyn : List (String × String)) (k v : String)
    (hnd : (keys dyn).Nodup) (hkv : alookup k dyn = some v)
    (h1 : k ≠ "tokenoverride") (h2 : k ≠ "_") :
    alookup "tokenoverride" (build_query cmd session dyn true) = some "1"
    ∧ alookup "_" (build_query cmd session dyn true) = some "0"
    ∧ (∀ p ∈ cmd.static_params, p.1 ∈ keys (build_query cmd session dyn true))
    ∧ (∀ p ∈ dyn, p.1 ∈ keys (build_query cmd session dyn true))
    ∧ "tokenoverride" ∈ keys (build_query cmd session dyn true)
    ∧ "_" ∈ keys (build_query cmd session dyn true)
    ∧ "session" ∈ keys (build_query cmd session dyn true)
    ∧ "action" ∈ keys (build_query cmd session dyn true)
    ∧ alookup k (build_query cmd session dyn true) = some v := by
  have hbq : build_query cmd session dyn true =
      dictInsert (dictInsert
        (dictUpdate (dictUpdate [("session", session), ("action", cmd.action)]
          cmd.static_params) dyn) "tokenoverride" "1") "_" "0" := rfl
  refine ⟨?_, ?_, ?_, ?_, ?_, ?_, ?_, ?_, ?_⟩
  · rw [hbq, alookup_dictInsert_ne _ _ _ _ (by decide), alookup_dictInsert_self]
  · rw [hbq, alookup_dictInsert_self]
  · intro p hp
    rw [hbq]
    exact mem_keys_dictInsert_of _ _ _ _ (mem_keys_dictInsert_of _ _ _ _
      (mem_keys_dictUpdate_left _ _ _ (mem_keys_dictUpdate_right _ _ _
        (List.mem_map_of_mem Prod.fst hp))))
  · intro p hp
    rw [hbq]
    exact mem_keys_dictInsert_of _ _ _ _ (mem_keys_dictInsert_of _ _ _ _
      (mem_keys_dictUpdate_right _ _ _ (List.mem_map_of_mem Prod.fst hp)))
  · rw [hbq]
    exact mem_keys_dictInsert_of _ _ _ _ (mem_keys_dictInsert_self _ _ _)
  · rw [hbq]
    exact mem_keys_dictInsert_self _ _ _
  · rw [hbq]
    exact mem_keys_dictInsert_of _ _ _ _ (mem_keys_dictInsert_of _ _ _ _
      (mem_keys_dictUpdate_left _ _ _ (mem_keys_dictUpdate_left _ _ _ (by simp [keys]))))
  · rw [hbq]
    exact mem_keys_dictInsert_of _ _ _ _ (mem_keys_dictInsert_of _ _ _ _
      (mem_keys_dictUpdate_left _ _ _ (mem_keys_dictUpdate_left _ _ _ (by simp [keys]))))
  · rw [hbq, alookup_dictInsert_ne _ _ _ _ h2, alookup_dictInsert_ne _ _ _ _ h1]
    exact alookup_dictUpdate_nodup _ _ _ _ hnd hkv

/-- Witness for C5 at the center command with dynamic parameters
ScreenX=1, ScreenY=2 and k = ScreenX. -/
theorem c5_build_query_merge_witness :
    alookup "tokenoverride" (build_query centerCommand "S"
      [("ScreenX", "1"), ("ScreenY", "2")] true) = some "1"
    ∧ alookup "_" (build_query centerCommand "S"
      [("ScreenX", "1"), ("ScreenY", "2")] true) = some "0"
    ∧ (∀ p ∈ centerCommand.static_params, p.1 ∈ keys (build_query centerCommand "S"
      [("ScreenX", "1"), ("ScreenY", "2")] true))
    ∧ (∀ p ∈ [("ScreenX", "1"), ("ScreenY", "2")], p.1 ∈ keys (build_query centerCommand "S"
      [("ScreenX", "1"), ("ScreenY", "2")] true))
    ∧ "tokenoverride" ∈ keys (build_query centerCommand "S"
      [("ScreenX", "1"), ("ScreenY", "2")] true)
    ∧ "_" ∈ keys (build_query centerCommand "S"
      [("ScreenX", "1"), ("ScreenY", "2")] true)
    ∧ "session" ∈ keys (build_query centerCommand "S"
      [("ScreenX", "1"), ("ScreenY", "2")] true)
    ∧ "action" ∈ keys (build_query centerCommand "S"
      [("ScreenX", "1"), ("ScreenY", "2")] true)
    ∧ alookup "ScreenX" (build_query centerCommand "S"
      [("ScreenX", "1"), ("ScreenY", "2")] true) = some "1" :=
  c5_build_query_merge centerCommand "S" [("ScreenX", "1"), ("ScreenY", "2")] "ScreenX" "1"
    (by decide) (by decide) (by decide) (by decide)

/-- Claim C7: boolean coercion matches the input case-insensitively
against the fixed truthy set (wire value "1") and falsy set (wire value
"0"), and any other input fails with an invalid-value error naming the
accepted inputs. -/
theorem c7_bool_coercion (name s : String) :
    (pyLower s ∈ truthySet → coerce_param_value name s (boolSpec name) = .ok "1")
    ∧ (pyLower s ∈ falsySet → coerce_param_value name s (boolSpec name) = .ok "0")
    ∧ (pyLower s ∉ truthySet → pyLower s ∉ falsySet →
        coerce_param_value name s (boolSpec name)
          = .error (.invalidBool name acceptedBoolInputs)) := by
  refine ⟨fun h => ?_, fun h => ?_, fun h1 h2 => ?_⟩
  · simp [coerce_param_value, boolSpec, h]
  · have ht := truthy_falsy_disjoint _ h
    simp [coerce_param_value, boolSpec, h, ht]
  · simp [coerce_param_value, boolSpec, h1, h2]

/-- Witness for C7 at the inputs YES (truthy), Off (falsy) and maybe
(neither). -/
theorem c7_bool_coercion_witness :
    coerce_param_value "b" "YES" (boolSpec "b") = .ok "1"
    ∧ coerce_param_value "b" "Off" (boolSpec "b") = .ok "0"
    ∧ coerce_param_value "b" "maybe" (boolSpec "b")
        = .error (.invalidBool "b" acceptedBoolInputs) :=
  ⟨(c7_bool_coercion "b" "YES").1 (by decide),
   (c7_bool_coercion "b" "Off").2.1 (by decide),
   (c7_bool_coercion "b" "maybe").2.2 (by decide) (by decide)⟩

/-- Claim C8: float coercion re-renders a parsed float with the fixed
10-significant-digit format — "2.0" becomes the wire string "2" and
"1.23456789123" becomes "1.234567891", a string with at most 10
significant digits — and a value that does not parse as the target
numeric type fails with an invalid-value error naming that type. -/
theorem c8_float_render :
    coerce_param_value "Magnification" "2.0" magSpec = .ok "2"
    ∧ coerce_param_value "Magnification" "1.23456789123" magSpec = .ok "1.234567891"
    ∧ digitCount "1.234567891" ≤ 10
    ∧ coerce_param_value "Magnification" "abc" magSpec
        = .error (.invalidConvert "Magnification" "abc" "float")
    ∧ coerce_param_value "Azimuth_Speed" "fast" ⟨"Azimuth_Speed", .pint, true, none⟩
        = .error (.invalidConvert "Azimuth_Speed" "fast" "int") := by
  refine ⟨rfl, rfl, by decide, rfl, rfl⟩

/-- Claim C6: with timeout T a session authenticated at t0 is still
valid at t0+T-1 — the expiry check is false and authenticate without
force is a no-op returning success — and stale at t0+T+1, where the
expiry check is true and authenticate performs an authentication
exchange; the expiry check is exactly (now - issued) > timeout,
computed from the wall clock passed in at call time.  The subprocess
backend behaves the same with its fixed timeout of 120 seconds. -/
theorem c6_session_freshness (T t0 : ℚ) (tok : String) (a r : ℕ)
    (env : ℕ → CameraControlAPI.AuthOutcome) (envc : ℕ → CameraControl.AuthOutcome)
    (htok : tok ≠ "") :
    CameraControlAPI.session_expired (t0 + T - 1) ⟨some tok, t0, a, r⟩ T = false
    ∧ CameraControlAPI.authenticate false (t0 + T - 1) T env ⟨some tok, t0, a, r⟩
        = (true, ⟨some tok, t0, a, r⟩)
    ∧ CameraControlAPI.session_expired (t0 + T + 1) ⟨some tok, t0, a, r⟩ T = true
    ∧ (CameraControlAPI.authenticate false (t0 + T + 1) T env ⟨some tok, t0, a, r⟩).2.authRuns
        = a + 1
    ∧ (∀ now : ℚ,
        CameraControlAPI.session_expired now ⟨some tok, t0, a, r⟩ T = false ↔ now - t0 ≤ T)
    ∧ CameraControl.session_expired (t0 + 120 - 1) ⟨some tok, t0, a, r⟩ = false
    ∧ CameraControl.session_expired (t0 + 120 + 1) ⟨some tok, t0, a, r⟩ = true
    ∧ CameraControl.authenticate false (t0 + 120 - 1) envc ⟨some tok, t0, a, r⟩
        = (true, ⟨some tok, t0, a, r⟩) := by
  have hfresh : CameraControlAPI.session_expired (t0 + T - 1) ⟨some tok, t0, a, r⟩ T = false := by
    simp only [CameraControlAPI.session_expired, decide_eq_false_iff_not, not_lt]
    linarith
  have hstale : CameraControlAPI.session_expired (t0 + T + 1) ⟨some tok, t0, a, r⟩ T = true := by
    simp only [CameraControlAPI.session_expired, decide_eq_true_eq]
    linarith
  have hccfresh : CameraControl.session_expired (t0 + 120 - 1) ⟨some tok, t0, a, r⟩ = false := by
    simp only [CameraControl.session_expired, CameraControl.SESSION_TIMEOUT,
      decide_eq_false_iff_not, not_lt]
    linarith
  have htr : isTruthy (some tok) = true := by
    simp [isTruthy, htok]
  refine ⟨hfresh, ?_, hstale, ?_, ?_, hccfresh, ?_, ?_⟩
  · rw [CameraControlAPI.authenticate, if_pos ⟨rfl, htr, hfresh⟩]
  · rw [CameraControlAPI.authenticate,
      if_neg (by simp [hstale])]
    rcases henv : env a with m | m | id
    · simp [henv, CameraControlAPI.invalidate_session]
    · simp [henv, CameraControlAPI.invalidate_session]
    · rcases id with _ | s
      · simp [henv, CameraControlAPI.invalidate_session]
      · by_cases hs : s = "" <;> simp [henv, hs, CameraControlAPI.invalidate_session]
  · intro now
    simp only [CameraControlAPI.session_expired, decide_eq_false_iff_not, not_lt]
  · simp only [CameraControl.session_expired, CameraControl.SESSION_TIMEOUT,
      decide_eq_true_eq]
    linarith
  · rw [CameraControl.authenticate, if_pos ⟨rfl, htr, hccfresh⟩]

/-- Witness for C6 at T = 120, t0 = 0, a nonempty token and arbitrary
constant oracles. -/
theorem c6_session_freshness_witness :
    CameraControlAPI.session_expired (0 + 120 - 1) ⟨some "TOK", 0, 0, 0⟩ 120 = false
    ∧ CameraControlAPI.authenticate false (0 + 120 - 1) 120 apiAuthOk ⟨some "TOK", 0, 0, 0⟩
        = (true, ⟨some "TOK", 0, 0, 0⟩)
    ∧ CameraControlAPI.session_expired (0 + 120 + 1) ⟨some "TOK", 0, 0, 0⟩ 120 = true
    ∧ (CameraControlAPI.authenticate false (0 + 120 + 1) 120 apiAuthOk
        ⟨some "TOK", 0, 0, 0⟩).2.authRuns = 0 + 1
    ∧ (∀ now : ℚ,
        CameraControlAPI.session_expired now ⟨some "TOK", 0, 0, 0⟩ 120 = false ↔ now - 0 ≤ 120)
    ∧ CameraControl.session_expired (0 + 120 - 1) ⟨some "TOK", 0, 0, 0⟩ = false
    ∧ CameraControl.session_expired (0 + 120 + 1) ⟨some "TOK", 0, 0, 0⟩ = true
    ∧ CameraControl.authenticate false (0 + 120 - 1) ccAuthOk ⟨some "TOK", 0, 0, 0⟩
        = (true, ⟨some "TOK", 0, 0, 0⟩) :=
  c6_session_freshness 120 0 "TOK" 0 0 apiAuthOk ccAuthOk (by decide)

/-- Claim C10: in get_degree_pos, when authentication succeeds but the
script stdout contains no brace on both attempts, each attempt runs the
continue branch, the loop is exhausted, and the function returns the
bare Python None (not the tuple (None, None)); no forced
reauthentication happens between the attempts and the session state is
untouched — only the two command-script runs are recorded. -/
theorem c10_no_brace_exhausts_loop (st st1 : CameraControl.State) (now : ℚ)
    (authEnv : ℕ → CameraControl.AuthOutcome) (degEnv : ℕ → CameraControl.RunOutcome)
    (hauth : CameraControl.authenticate false now authEnv st = (true, st1))
    (h0 : degEnv st1.cmdRuns = .ok .noBrace)
    (h1 : degEnv (st1.cmdRuns + 1) = .ok .noBrace) :
    CameraControl.get_degree_pos now authEnv degEnv st
      = (none, { st1 with cmdRuns := st1.cmdRuns + 2 })
    ∧ (none : Option (Option ℚ × Option ℚ)) ≠ some (none, none)
    ∧ ({ st1 with cmdRuns := st1.cmdRuns + 2 } : CameraControl.State).authRuns = st1.authRuns
    ∧ ({ st1 with cmdRuns := st1.cmdRuns + 2 } : CameraControl.State).session_id
        = st1.session_id := by
  refine ⟨?_, by simp, rfl, rfl⟩
  rw [CameraControl.get_degree_pos, hauth]
  simp only [CameraControl.gpLoop, h0]
  simp only [CameraControl.gpLoop, h1]

/-- The fast path of the subprocess backend: with a nonempty token and
an unexpired session, authenticate without force is a no-op. -/
lemma cc_auth_noop (env : ℕ → CameraControl.AuthOutcome) (st : CameraControl.State)
    (tok : String) (now : ℚ) (h1 : st.session_id = some tok) (h2 : tok ≠ "")
    (h3 : now - st.last_auth_time ≤ 120) :
    CameraControl.authenticate false now env st = (true, st) := by
  rw [CameraControl.authenticate, if_pos]
  refine ⟨rfl, by simp [h1, isTruthy, h2], ?_⟩
  simp only [CameraControl.session_expired, CameraControl.SESSION_TIMEOUT,
    decide_eq_false_iff_not, not_lt]
  linarith

/-- The fast path of the direct-HTTP backend: with a nonempty token and
an unexpired session, authenticate without force is a no-op. -/
lemma api_auth_noop (env : ℕ → CameraControlAPI.AuthOutcome) (st : CameraControlAPI.State)
    (tok : String) (now timeout : ℚ) (h1 : st.session_id = some tok) (h2 : tok ≠ "")
    (h3 : now - st.last_auth ≤ timeout) :
    CameraControlAPI.authenticate false now timeout env st = (true, st) := by
  rw [CameraControlAPI.authenticate, if_pos]
  refine ⟨rfl, by simp [h1, isTruthy, h2], ?_⟩
  simp only [CameraControlAPI.session_expired, decide_eq_false_iff_not, not_lt]
  linarith

/-- Witness for C10: a fresh session and a script whose stdout never
contains a brace. -/
theorem c10_no_brace_exhausts_loop_witness :
    CameraControl.get_degree_pos 100 ccAuthOk ccRunNoBrace ccFresh
      = (none, { ccFresh with cmdRuns := ccFresh.cmdRuns + 2 })
    ∧ (none : Option (Option ℚ × Option ℚ)) ≠ some (none, none)
    ∧ ({ ccFresh with cmdRuns := ccFresh.cmdRuns + 2 } : CameraControl.State).authRuns
        = ccFresh.authRuns
    ∧ ({ ccFresh with cmdRuns := ccFresh.cmdRuns + 2 } : CameraControl.State).session_id
        = ccFresh.session_id :=
  c10_no_brace_exhausts_loop ccFresh ccFresh 100 ccAuthOk ccRunNoBrace
    (cc_auth_noop ccAuthOk ccFresh "TOK" 100 rfl (by decide) (by norm_num [ccFresh]))
    rfl rfl

/-- Forced reauthentication in the subprocess backend with a script
that exits zero and prints a nonempty token: the stripped stdout
becomes the token and the issue time becomes now. -/
lemma cc_auth_forced_ok (env : ℕ → CameraControl.AuthOutcome) (st : CameraControl.State)
    (now : ℚ) (sid : String) (h5 : env st.authRuns = .ok sid) (h6 : pyStrip sid ≠ "") :
    CameraControl.authenticate true now env st =
      (true, { st with session_id := some (pyStrip sid), last_auth_time := now,
                       authRuns := st.authRuns + 1 }) := by
  rw [CameraControl.authenticate, if_neg (by simp)]
  simp only [h5, if_neg h6]

/-- Claim C1 as it holds of the subprocess backend: for a dispatch of
get_degree_pos with a valid existing session, when the script call
fails on the first attempt, the dispatcher forces reauthentication
exactly once and retries exactly once; when the forced
reauthentication succeeds and the second script call succeeds, the
dispatch succeeds with the parsed fields, having made exactly one
forced reauthentication (authRuns + 1) and two script calls
(cmdRuns + 2).  The direct-HTTP backend violates the claim — see the
counterexample. -/
theorem c1_retry_after_first_failure (st : CameraControl.State) (now : ℚ)
    (tok sid errMsg : String) (authEnv : ℕ → CameraControl.AuthOutcome)
    (degEnv : ℕ → CameraControl.RunOutcome) (az el : Option ℚ)
    (h1 : st.session_id = some tok) (h2 : tok ≠ "")
    (h3 : now - st.last_auth_time ≤ 120)
    (h4 : degEnv st.cmdRuns = .procError errMsg)
    (h5 : authEnv st.authRuns = .ok sid) (h6 : pyStrip sid ≠ "")
    (h7 : degEnv (st.cmdRuns + 1) = .ok (.payload az el)) :
    CameraControl.get_degree_pos now authEnv degEnv st =
      (some (az, el),
       { st with session_id := some (pyStrip sid), last_auth_time := now,
                 authRuns := st.authRuns + 1, cmdRuns := st.cmdRuns + 2 }) := by
  rw [CameraControl.get_degree_pos, cc_auth_noop authEnv st tok now h1 h2 h3]
  simp only [CameraControl.gpLoop, h4, if_true]
  rw [cc_auth_forced_ok authEnv { st with cmdRuns := st.cmdRuns + 1 } now sid h5 h6]
  simp only [CameraControl.gpLoop, h7]

/-- Witness for C1: fresh session, first script call exits nonzero,
reauthentication yields NEWTOK, second call returns azimuth 1 and
elevation 2. -/
theorem c1_retry_after_first_failure_witness :
    CameraControl.get_degree_pos 100 ccAuthOk ccRunFailThenOk ccFresh =
      (some (some 1, some 2),
       { ccFresh with session_id := some (pyStrip "NEWTOK"), last_auth_time := 100,
                      authRuns := ccFresh.authRuns + 1, cmdRuns := ccFresh.cmdRuns + 2 }) :=
  c1_retry_after_first_failure ccFresh 100 "TOK" "NEWTOK" "boom" ccAuthOk ccRunFailThenOk
    (some 1) (some 2) rfl (by decide) (by norm_num [ccFresh]) rfl rfl (by decide) rfl

/-- Counterexample to C1 as stated over every dispatch: the
direct-HTTP backend's execute performs no retry.  With a valid fresh
session and a transport oracle that fails on the first call but would
succeed on the second, execute returns the transport failure after
exactly one transport call (reqRuns becomes 1) and performs no forced
reauthentication (authRuns unchanged), instead of reauthenticating and
retrying. -/
theorem c1_api_execute_no_retry :
    CameraControlAPI.execute "get_position" [] 100 120 apiAuthOk reqFailThenOk apiFresh
      = (.error (.transport "Failed to reach camera: connection refused"),
         { apiFresh with reqRuns := 1 })
    ∧ isTruthy apiFresh.session_id = true
    ∧ (100 : ℚ) - apiFresh.last_auth ≤ 120
    ∧ reqFailThenOk 1 [] = .response (.jsonDict "ok")
    ∧ ({ apiFresh with reqRuns := 1 } : CameraControlAPI.State).authRuns
        = apiFresh.authRuns := by
  refine ⟨?_, by decide, by norm_num [apiFresh], rfl, rfl⟩
  have ha := api_auth_noop apiAuthOk apiFresh "TOK" 100 120 rfl (by decide)
    (by norm_num [apiFresh])
  simp only [CameraControlAPI.execute, ha]
  rfl

/-- Claim C2 as it holds of the subprocess backend: for a dispatch of
move_camera_to_absolute_pos with a valid existing session, when the
script call fails on both the initial attempt and the single retry
after a successful forced reauthentication, the dispatch fails
(returns False) after exactly two script calls (cmdRuns + 2) and
exactly one forced reauthentication (authRuns + 1); no third attempt
is made.  The direct-HTTP backend violates the claim — see the
counterexample. -/
theorem c2_double_failure_gives_up (st : CameraControl.State) (now : ℚ)
    (tok sid e1 e2 : String) (taz tel saz sel : ℚ)
    (authEnv : ℕ → CameraControl.AuthOutcome) (moveEnv : ℕ → CameraControl.RunOutcome)
    (h1 : st.session_id = some tok) (h2 : tok ≠ "")
    (h3 : now - st.last_auth_time ≤ 120)
    (h4 : moveEnv st.cmdRuns = .procError e1)
    (h5 : authEnv st.authRuns = .ok sid) (h6 : pyStrip sid ≠ "")
    (h7 : moveEnv (st.cmdRuns + 1) = .procError e2) :
    CameraControl.move_camera_to_absolute_pos taz tel saz sel now authEnv moveEnv st =
      (some false,
       { st with session_id := some (pyStrip sid), last_auth_time := now,
                 authRuns := st.authRuns + 1, cmdRuns := st.cmdRuns + 2 }) := by
  rw [CameraControl.move_camera_to_absolute_pos, cc_auth_noop authEnv st tok now h1 h2 h3]
  simp only [CameraControl.moveLoop, h4, if_true]
  rw [cc_auth_forced_ok authEnv { st with cmdRuns := st.cmdRuns + 1 } now sid h5 h6]
  simp only [CameraControl.moveLoop, h7]
  simp

/-- Witness for C2: fresh session, both script calls exit nonzero,
reauthentication succeeds in between. -/
theorem c2_double_failure_gives_up_witness :
    CameraControl.move_camera_to_absolute_pos 1 2 180 180 100 ccAuthOk ccRunFailAlways
      ccFresh =
      (some false,
       { ccFresh with session_id := some (pyStrip "NEWTOK"), last_auth_time := 100,
                      authRuns := ccFresh.authRuns + 1, cmdRuns := ccFresh.cmdRuns + 2 }) :=
  c2_double_failure_gives_up ccFresh 100 "TOK" "NEWTOK" "boom" "boom" 1 2 180 180
    ccAuthOk ccRunFailAlways rfl (by decide) (by norm_num [ccFresh]) rfl rfl (by decide) rfl

/-- Counterexample to C2 as stated over every dispatch: with a valid
fresh session and a transport oracle that fails on every call, the
direct-HTTP backend's execute fails after exactly one transport call
and zero forced reauthentications — not after two transport calls and
one forced reauthentication. -/
theorem c2_api_execute_single_failure :
    CameraControlAPI.execute "get_position" [] 100 120 apiAuthOk reqFailAlways apiFresh
      = (.error (.transport "Failed to reach camera: connection refused"),
         { apiFresh with reqRuns := 1 })
    ∧ isTruthy apiFresh.session_id = true
    ∧ (100 : ℚ) - apiFresh.last_auth ≤ 120
    ∧ ({ apiFresh with reqRuns := 1 } : CameraControlAPI.State).authRuns
        = apiFresh.authRuns
    ∧ ({ apiFresh with reqRuns := 1 } : CameraControlAPI.State).reqRuns
        = apiFresh.reqRuns + 1 := by
  refine ⟨?_, by decide, by norm_num [apiFresh], rfl, rfl⟩
  have ha := api_auth_noop apiAuthOk apiFresh "TOK" 100 120 rfl (by decide)
    (by norm_num [apiFresh])
  simp only [CameraControlAPI.execute, ha]
  rfl

/-- In the direct-HTTP backend every failing authenticate path goes
through invalidate_session: the token is cleared and the issue time
reset. -/
lemma api_auth_false_unauth (force : Bool) (now timeout : ℚ)
    (env : ℕ → CameraControlAPI.AuthOutcome) (st st2 : CameraControlAPI.State)
    (h : CameraControlAPI.authenticate force now timeout env st = (false, st2)) :
    st2.session_id = none ∧ st2.last_auth = 0 := by
  rw [CameraControlAPI.authenticate] at h
  split at h
  · injection h with h1 _
    exact Bool.noConfusion h1
  · split at h
    · injection h with _ h2
      subst h2
      exact ⟨rfl, rfl⟩
    · injection h with _ h2
      subst h2
      exact ⟨rfl, rfl⟩
    · split at h
      · injection h with _ h2
        subst h2
        exact ⟨rfl, rfl⟩
      · split at h
        · injection h with _ h2
          subst h2
          exact ⟨rfl, rfl⟩
        · injection h with h1 _
          exact Bool.noConfusion h1

/-- In the subprocess backend every failing authenticate path leaves a
falsy token (None, or the stored empty string); the issue time is not
touched by the failure branches. -/
lemma cc_auth_false_not_truthy (force : Bool) (now : ℚ)
    (env : ℕ → CameraControl.AuthOutcome) (st st2 : CameraControl.State)
    (h : CameraControl.authenticate force now env st = (false, st2)) :
    isTruthy st2.session_id = false := by
  rw [CameraControl.authenticate] at h
  split at h
  · injection h with h1 _
    exact Bool.noConfusion h1
  · split at h
    · injection h with _ h2
      subst h2
      rfl
    · injection h with _ h2
      subst h2
      rfl
    · simp only at h
      split at h
      · rename_i hsid
        injection h with _ h2
        subst h2
        simp [isTruthy, hsid]
      · injection h with h1 _
        exact Bool.noConfusion h1

/-- A successful authenticate in the subprocess backend either took the
fast path (session fields unchanged) or stored a nonempty token issued
now. -/
lemma cc_auth_true_cases (force : Bool) (now : ℚ)
    (env : ℕ → CameraControl.AuthOutcome) (st st2 : CameraControl.State)
    (h : CameraControl.authenticate force now env st = (true, st2)) :
    (st2.session_id = st.session_id ∧ st2.last_auth_time = st.last_auth_time)
    ∨ (isTruthy st2.session_id = true ∧ st2.last_auth_time = now) := by
  rw [CameraControl.authenticate] at h
  split at h
  · injection h with _ h2
    subst h2
    exact Or.inl ⟨rfl, rfl⟩
  · split at h
    · injection h with h1 _
      exact Bool.noConfusion h1
    · injection h with h1 _
      exact Bool.noConfusion h1
    · simp only at h
      split at h
      · injection h with h1 _
        exact Bool.noConfusion h1
      · rename_i hsid
        injection h with _ h2
        subst h2
        exact Or.inr ⟨by simp [isTruthy, hsid], rfl⟩

/-- Session-field trichotomy through the get_degree_pos retry loop:
the loop either leaves the session fields untouched, or leaves a falsy
token (a failed forced reauthentication), or leaves a nonempty token
issued now (a successful forced reauthentication). -/
lemma gpLoop_session_trichotomy (now : ℚ) (authEnv : ℕ → CameraControl.AuthOutcome)
    (degEnv : ℕ → CameraControl.RunOutcome) (l : List ℕ) (st : CameraControl.State)
    (r : Option (Option ℚ × Option ℚ)) (st2 : CameraControl.State)
    (h : CameraControl.gpLoop now authEnv degEnv l st = (r, st2)) :
    (st2.session_id = st.session_id ∧ st2.last_auth_time = st.last_auth_time)
    ∨ isTruthy st2.session_id = false
    ∨ (isTruthy st2.session_id = true ∧ st2.last_auth_time = now) := by
  induction l generalizing st r st2 with
  | nil =>
    rw [CameraControl.gpLoop] at h
    injection h with _ h2
    subst h2
    exact Or.inl ⟨rfl, rfl⟩
  | cons a rest ih =>
    rw [CameraControl.gpLoop] at h
    split at h
    · have hh := ih _ _ _ h
      exact hh
    · injection h with _ h2
      subst h2
      exact Or.inl ⟨rfl, rfl⟩
    · injection h with _ h2
      subst h2
      exact Or.inl ⟨rfl, rfl⟩
    · injection h with _ h2
      subst h2
      exact Or.inl ⟨rfl, rfl⟩
    · split at h
      · split at h
        · rename_i hauth
          injection h with _ h2
          subst h2
          exact Or.inr (Or.inl (cc_auth_false_not_truthy _ _ _ _ _ hauth))
        · rename_i hauth
          have hcases := cc_auth_true_cases _ _ _ _ _ hauth
          rcases ih _ _ _ h with h1 | h2 | h3
          · rcases hcases with hc | hc
            · exact Or.inl ⟨h1.1.trans hc.1, h1.2.trans hc.2⟩
            · exact Or.inr (Or.inr ⟨h1.1 ▸ hc.1, h1.2.trans hc.2⟩)
          · exact Or.inr (Or.inl h2)
          · exact Or.inr (Or.inr h3)
      · injection h with _ h2
        subst h2
        exact Or.inl ⟨rfl, rfl⟩

/-- Concrete double-failure run of get_degree_pos from a valid session
issued at 50: both script calls fail, the forced reauthentication in
between succeeds with NEWTOK, and the dispatch fails leaving a fresh
authenticated session. -/
lemma ccOld_double_failure :
    CameraControl.get_degree_pos 60 ccAuthOk ccRunFailAlways ccOld
      = (some (none, none), ⟨some (pyStrip "NEWTOK"), 60, 1, 2⟩) := by
  rw [CameraControl.get_degree_pos,
    cc_auth_noop ccAuthOk ccOld "OLD" 60 rfl (by decide) (by norm_num [ccOld])]
  have hF : ∀ n, ccRunFailAlways n = .procError "boom" := fun _ => rfl
  simp only [CameraControl.gpLoop, hF, if_true]
  rw [cc_auth_forced_ok ccAuthOk { ccOld with cmdRuns := ccOld.cmdRuns + 1 } 60 "NEWTOK"
    rfl (by decide)]
  simp only [CameraControl.gpLoop, hF]
  simp [ccOld]

/-- Claim C9 amended: when the authentication exchange fails the
session manager clears the token and returns failure, so the session
is Unauthenticated in the sense that its token is falsy; the
direct-HTTP backend also resets the issue time, while the subprocess
backend leaves the old issue time in place (harmless, since a falsy
token alone invalidates the session).  A failed dispatch leaves the
session either in its prior state, or with a falsy token (reauth
attempted and failed), or freshly authenticated with a token issued
now (forced reauth succeeded but the retried command still failed). -/
theorem c9_failed_auth_leaves_unauthenticated :
    (∀ (force : Bool) (now timeout : ℚ) (env : ℕ → CameraControlAPI.AuthOutcome)
        (st st2 : CameraControlAPI.State),
        CameraControlAPI.authenticate force now timeout env st = (false, st2) →
        st2.session_id = none ∧ st2.last_auth = 0)
    ∧ (∀ (force : Bool) (now : ℚ) (env : ℕ → CameraControl.AuthOutcome)
        (st st2 : CameraControl.State),
        CameraControl.authenticate force now env st = (false, st2) →
        isTruthy st2.session_id = false)
    ∧ (∀ (now : ℚ) (authEnv : ℕ → CameraControl.AuthOutcome)
        (degEnv : ℕ → CameraControl.RunOutcome) (st st2 : CameraControl.State)
        (r : Option (Option ℚ × Option ℚ)),
        CameraControl.get_degree_pos now authEnv degEnv st = (r, st2) →
        (st2.session_id = st.session_id ∧ st2.last_auth_time = st.last_auth_time)
        ∨ isTruthy st2.session_id = false
        ∨ (isTruthy st2.session_id = true ∧ st2.last_auth_time = now)) := by
  refine ⟨api_auth_false_unauth, cc_auth_false_not_truthy, ?_⟩
  intro now aE dE st st2 r h
  rw [CameraControl.get_degree_pos] at h
  rcases hA : CameraControl.authenticate false now aE st with ⟨b, st1⟩
  rw [hA] at h
  cases b with
  | false =>
    injection h with _ h2
    subst h2
    exact Or.inr (Or.inl (cc_auth_false_not_truthy _ _ _ _ _ hA))
  | true =>
    have hcases := cc_auth_true_cases _ _ _ _ _ hA
    rcases gpLoop_session_trichotomy _ _ _ _ _ _ _ h with h1 | h2 | h3
    · rcases hcases with hc | hc
      · exact Or.inl ⟨h1.1.trans hc.1, h1.2.trans hc.2⟩
      · exact Or.inr (Or.inr ⟨h1.1 ▸ hc.1, h1.2.trans hc.2⟩)
    · exact Or.inr (Or.inl h2)
    · exact Or.inr (Or.inr h3)

/-- Counterexample to C9 as stated: the subprocess backend does not
reset the issue time on a failed forced reauthentication (it stays 50,
not 0); and a failed dispatch can leave a session that is neither the
previous authenticated one nor unauthenticated — after a double script
failure with a successful forced reauthentication in between, the
session holds the fresh truthy token NEWTOK, different from the
previous token. -/
theorem c9_counterexample :
    CameraControl.authenticate true 60 ccAuthFail ccOld
      = (false, { ccOld with session_id := none, authRuns := 1 })
    ∧ ccOld.last_auth_time = 50
    ∧ ({ ccOld with session_id := none, authRuns := 1 } : CameraControl.State).last_auth_time
        = 50
    ∧ (50 : ℚ) ≠ 0
    ∧ CameraControl.get_degree_pos 60 ccAuthOk ccRunFailAlways ccOld
        = (some (none, none), ⟨some (pyStrip "NEWTOK"), 60, 1, 2⟩)
    ∧ isTruthy (some (pyStrip "NEWTOK")) = true
    ∧ some (pyStrip "NEWTOK") ≠ ccOld.session_id := by
  refine ⟨?_, rfl, rfl, by norm_num, ccOld_double_failure, by decide, by decide⟩
  rw [CameraControl.authenticate, if_neg (by simp)]
  rfl

/-- Witness for C9 (amended): each component applied at a concrete
failing exchange or dispatch. -/
theorem c9_failed_auth_leaves_unauthenticated_witness :
    ((⟨none, 0, 1, 0⟩ : CameraControlAPI.State).session_id = none
      ∧ (⟨none, 0, 1, 0⟩ : CameraControlAPI.State).last_auth = 0)
    ∧ isTruthy (⟨none, 50, 1, 0⟩ : CameraControl.State).session_id = false
    ∧ (((⟨some (pyStrip "NEWTOK"), 60, 1, 2⟩ : CameraControl.State).session_id
          = ccOld.session_id
        ∧ (⟨some (pyStrip "NEWTOK"), 60, 1, 2⟩ : CameraControl.State).last_auth_time
          = ccOld.last_auth_time)
      ∨ isTruthy (⟨some (pyStrip "NEWTOK"), 60, 1, 2⟩ : CameraControl.State).session_id
          = false
      ∨ (isTruthy (⟨some (pyStrip "NEWTOK"), 60, 1, 2⟩ : CameraControl.State).session_id
          = true
        ∧ (⟨some (pyStrip "NEWTOK"), 60, 1, 2⟩ : CameraControl.State).last_auth_time
          = 60)) := by
  have h1 : CameraControlAPI.authenticate false 60 120
      (fun _ => CameraControlAPI.AuthOutcome.transportErr "down") ⟨none, 7, 0, 0⟩
      = (false, ⟨none, 0, 1, 0⟩) := by
    rw [CameraControlAPI.authenticate, if_neg (by simp [isTruthy])]
    rfl
  have h2 : CameraControl.authenticate false 60 ccAuthFail ⟨none, 50, 0, 0⟩
      = (false, ⟨none, 50, 1, 0⟩) := by
    rw [CameraControl.authenticate, if_neg (by simp [isTruthy])]
    rfl
  exact ⟨c9_failed_auth_leaves_unauthenticated.1 false 60 120 _ _ _ h1,
    c9_failed_auth_leaves_unauthenticated.2.1 false 60 ccAuthFail _ _ h2,
    c9_failed_auth_leaves_unauthenticated.2.2 60 ccAuthOk ccRunFailAlways ccOld _ _
      ccOld_double_failure⟩

lemma alookup_eq_none (k : String) (l : List (String × String))
    (h : ∀ p ∈ l, p.1 ≠ k) : alookup k l = none := by
  induction l with
  | nil => rfl
  | cons p rest ih =>
    rw [alookup, if_neg (h p (List.mem_cons_self p rest)),
      ih (fun q hq => h q (List.mem_cons_of_mem p hq))]

lemma alookup_append_of_none (k : String) (l1 l2 : List (String × String))
    (h : alookup k l1 = none) : alookup k (l1 ++ l2) = alookup k l2 := by
  induction l1 with
  | nil => rfl
  | cons p rest ih =>
    rw [alookup] at h
    by_cases hp : p.1 = k
    · rw [if_pos hp] at h
      exact Option.noConfusion h
    · rw [if_neg hp] at h
      rw [List.cons_append, alookup, if_neg hp, ih h]

lemma alookup_append_of_some (k v : String) (l1 l2 : List (String × String))
    (h : alookup k l1 = some v) : alookup k (l1 ++ l2) = some v := by
  induction l1 with
  | nil => exact Option.noConfusion h
  | cons p rest ih =>
    rw [alookup] at h
    by_cases hp : p.1 = k
    · rw [if_pos hp] at h
      rw [List.cons_append, alookup, if_pos hp]
      exact h
    · rw [if_neg hp] at h
      rw [List.cons_append, alookup, if_neg hp, ih h]

/-- The resolution loop only appends pairs named after the remaining
specs: a successful run extends the accumulator with entries whose
keys are declared parameter names. -/
lemma resolveLoop_ok_structure (cmdName : String) (supplied : List (String × String))
    (specs : List ParamSpec) (acc out : List (String × String))
    (hok : resolveLoop cmdName supplied specs acc = .ok out) :
    ∃ tail, out = acc ++ tail ∧ ∀ p ∈ tail, p.1 ∈ specs.map ParamSpec.name := by
  induction specs generalizing acc with
  | nil =>
    simp only [resolveLoop] at hok
    injection hok with h
    exact ⟨[], h.symm ▸ (List.append_nil acc).symm, by simp⟩
  | cons sp0 rest ih =>
    simp only [resolveLoop] at hok
    split at hok
    · split at hok
      · exact Except.noConfusion hok
      · split at hok
        · rcases ih _ hok with ⟨tail, hout, htail⟩
          refine ⟨(sp0.name, _) :: tail, by simpa using hout, ?_⟩
          intro p hp
          rcases List.mem_cons.mp hp with h | h
          · subst h
            simp
          · simp only [List.map_cons, List.mem_cons]
            exact Or.inr (htail p h)
        · rcases ih _ hok with ⟨tail, hout, htail⟩
          refine ⟨tail, hout, ?_⟩
          intro p hp
          simp only [List.map_cons, List.mem_cons]
          exact Or.inr (htail p hp)
    · split at hok
      · rcases ih _ hok with ⟨tail, hout, htail⟩
        refine ⟨(sp0.name, _) :: tail, by simpa using hout, ?_⟩
        intro p hp
        rcases List.mem_cons.mp hp with h | h
        · subst h
          simp
        · simp only [List.map_cons, List.mem_cons]
          exact Or.inr (htail p h)
      · exact Except.noConfusion hok

/-- Core of the C3 analysis: an absent parameter with a default
contributes exactly the stored default string to a successful
resolution, with no coercion applied. -/
lemma resolveLoop_default_entry (cmdName : String) (supplied : List (String × String))
    (specs : List ParamSpec) (acc out : List (String × String)) (sp : ParamSpec) (d : String)
    (hnd : (specs.map ParamSpec.name).Nodup)
    (hsp : sp ∈ specs) (habs : alookup sp.name supplied = none)
    (hdef : sp.default = some d)
    (hacc : ∀ p ∈ acc, p.1 ≠ sp.name)
    (hok : resolveLoop cmdName supplied specs acc = .ok out) :
    alookup sp.name out = some d := by
  induction specs generalizing acc with
  | nil => exact absurd hsp (List.not_mem_nil sp)
  | cons sp0 rest ih =>
    simp only [List.map_cons, List.nodup_cons] at hnd
    rcases List.mem_cons.mp hsp with rfl | hmem
    · simp only [resolveLoop, habs, hdef] at hok
      rw [if_neg (by simp [hdef])] at hok
      rcases resolveLoop_ok_structure _ _ _ _ _ hok with ⟨tail, hout, htail⟩
      subst hout
      rw [List.append_assoc] at *
      rw [alookup_append_of_none _ _ _ (alookup_eq_none _ _ hacc)]
      rw [List.cons_append, alookup, if_pos rfl]
    · have hne : sp0.name ≠ sp.name := by
        intro hcontra
        exact hnd.1 (hcontra ▸ List.mem_map_of_mem ParamSpec.name hmem)
      simp only [resolveLoop] at hok
      split at hok
      · split at hok
        · exact Except.noConfusion hok
        · split at hok
          · refine ih _ hnd.2 hmem ?_ hok
            intro p hp
            rcases List.mem_append.mp hp with h | h
            · exact hacc p h
            · rcases List.mem_singleton.mp h with rfl
              exact hne
          · exact ih _ hnd.2 hmem hacc hok
      · split at hok
        · refine ih _ hnd.2 hmem ?_ hok
          intro p hp
          rcases List.mem_append.mp hp with h | h
          · exact hacc p h
          · rcases List.mem_singleton.mp h with rfl
            exact hne
        · exact Except.noConfusion hok

/-- Claim C3 amended: a declared parameter absent from the supplied set
whose spec has a default contributes the str() rendering of the default
verbatim — the default is NOT passed through the type-coercion
function (see the counterexample: a float default 2.0 is sent as "2.0",
where coercion of a supplied "2.0" produces "2"). -/
theorem c3_default_used_verbatim (pc : ParsedCommand) (supplied : List (String × String))
    (sp : ParamSpec) (d : String) (out : List (String × String))
    (hnd : (declaredNames pc).Nodup)
    (hsp : sp ∈ pc.param_specs)
    (habs : alookup sp.name supplied = none)
    (hdef : sp.default = some d)
    (hok : resolve_params pc supplied = .ok out) :
    alookup sp.name out = some d := by
  rw [resolve_params] at hok
  split at hok
  · exact Except.noConfusion hok
  · rename_i acc hloop
    split at hok
    · injection hok with h
      subst h
      exact resolveLoop_default_entry pc.name supplied pc.param_specs [] acc sp d hnd hsp
        habs hdef (by simp) hloop
    · exact Except.noConfusion hok

/-- Counterexample to C3 as stated: resolving the one-parameter command
whose float parameter has default 2.0 with an empty supplied set
produces the wire value "2.0" (the str() rendering), while coercing the
same value through the float coercion produces "2"; the default is not
coerced the same way as a supplied value. -/
theorem c3_counterexample :
    resolve_params cmdWithDefault [] = .ok [("Magnification", "2.0")]
    ∧ coerce_param_value "Magnification" "2.0" magDefaultSpec = .ok "2"
    ∧ ("2.0" : String) ≠ "2" :=
  ⟨rfl, rfl, by decide⟩

/-- Witness for C3 (amended) at the one-parameter command with a
default and an empty supplied set. -/
theorem c3_default_used_verbatim_witness :
    alookup "Magnification" [("Magnification", "2.0")] = some "2.0" :=
  c3_default_used_verbatim cmdWithDefault [] magDefaultSpec "2.0"
    [("Magnification", "2.0")] (by decide) (by decide) rfl rfl rfl

/-- coerce_param_value only fails with an invalid-bool or
invalid-convert error. -/
lemma coerce_error_shape (n v : String) (sp : ParamSpec) (e : ParamErr)
    (h : coerce_param_value n v sp = .error e) :
    (∃ acc, e = .invalidBool n acc) ∨ (∃ val ty, e = .invalidConvert n val ty) := by
  rw [coerce_param_value] at h
  split at h
  · split at h
    · exact Except.noConfusion h
    · split at h
      · exact Except.noConfusion h
      · injection h with h1
        exact Or.inl ⟨acceptedBoolInputs, h1.symm⟩
  · split at h
    · exact Except.noConfusion h
    · injection h with h1
      exact Or.inr ⟨v, "int", h1.symm⟩
  · split at h
    · exact Except.noConfusion h
    · injection h with h1
      exact Or.inr ⟨v, "float", h1.symm⟩
  · exact Except.noConfusion h

/-- The resolution loop only fails with a missing-parameter error
naming the command, or a coercion error. -/
lemma resolveLoop_error_shape (cmdName : String) (supplied : List (String × String))
    (specs : List ParamSpec) : ∀ (acc : List (String × String)) (e : ParamErr),
    resolveLoop cmdName supplied specs acc = .error e →
    (∃ n, e = .missing n cmdName) ∨ (∃ a b, e = .invalidBool a b)
    ∨ (∃ a b c, e = .invalidConvert a b c) := by
  induction specs with
  | nil =>
    intro acc e h
    exact Except.noConfusion h
  | cons sp0 rest ih =>
    intro acc e h
    simp only [resolveLoop] at h
    split at h
    · split at h
      · injection h with h1
        exact Or.inl ⟨sp0.name, h1.symm⟩
      · split at h
        · exact ih _ _ h
        · exact ih _ _ h
    · split at h
      · exact ih _ _ h
      · rename_i e0 hco
        injection h with h1
        rcases coerce_error_shape _ _ _ _ hco with ⟨a, ha⟩ | ⟨a, b, hab⟩
        · exact Or.inr (Or.inl ⟨sp0.name, a, h1 ▸ ha⟩)
        · exact Or.inr (Or.inr ⟨sp0.name, a, b, h1 ▸ hab⟩)

/-- A missing-parameter failure of the loop names the command and a
declared required parameter without default that is absent. -/
lemma resolveLoop_missing_shape (cmdName : String) (supplied : List (String × String))
    (specs : List ParamSpec) : ∀ (acc : List (String × String)) (n c : String),
    resolveLoop cmdName supplied specs acc = .error (.missing n c) →
    c = cmdName ∧ ∃ sp ∈ specs, sp.name = n ∧ missingReq sp supplied := by
  induction specs with
  | nil =>
    intro acc n c h
    exact Except.noConfusion h
  | cons sp0 rest ih =>
    intro acc n c h
    simp only [resolveLoop] at h
    split at h
    · rename_i halk
      split at h
      · rename_i hcond
        injection h with h1
        injection h1 with h2 h3
        exact ⟨h3.symm, sp0, List.mem_cons_self sp0 rest,
          h2, hcond.1, hcond.2, halk⟩
      · split at h
        · rcases ih _ _ _ h with ⟨hcn, sp, hsp, hrest⟩
          exact ⟨hcn, sp, List.mem_cons_of_mem sp0 hsp, hrest⟩
        · rcases ih _ _ _ h with ⟨hcn, sp, hsp, hrest⟩
          exact ⟨hcn, sp, List.mem_cons_of_mem sp0 hsp, hrest⟩
    · split at h
      · rcases ih _ _ _ h with ⟨hcn, sp, hsp, hrest⟩
        exact ⟨hcn, sp, List.mem_cons_of_mem sp0 hsp, hrest⟩
      · rename_i e0 hco
        injection h with h1
        rcases coerce_error_shape _ _ _ _ hco with ⟨a, ha⟩ | ⟨a, b, hab⟩
        · rw [h1] at ha
          exact ParamErr.noConfusion ha
        · rw [h1] at hab
          exact ParamErr.noConfusion hab

/-- When every spec before sp resolves (not missing-required, and any
supplied value for it coerces), the loop reaches sp and fails with the
missing-parameter error naming sp: missing-required errors are raised
in spec-declaration order, before the unexpected-parameter check. -/
lemma resolveLoop_first_missing (cmdName : String) (supplied : List (String × String))
    (sp : ParamSpec) (post : List ParamSpec) :
    ∀ (pre : List ParamSpec) (acc : List (String × String)),
    (∀ sp2 ∈ pre ++ sp :: post, ∀ v, alookup sp2.name supplied = some v →
      ∃ w, coerce_param_value sp2.name v sp2 = .ok w) →
    missingReq sp supplied →
    (∀ sp2 ∈ pre, ¬missingReq sp2 supplied) →
    resolveLoop cmdName supplied (pre ++ sp :: post) acc = .error (.missing sp.name cmdName) := by
  intro pre
  induction pre with
  | nil =>
    intro acc hc hm hpre
    simp only [List.nil_append, resolveLoop, hm.2.2]
    rw [if_pos ⟨hm.1, hm.2.1⟩]
  | cons sp0 pre2 ih =>
    intro acc hc hm hpre
    have h0 : ¬missingReq sp0 supplied := hpre sp0 (List.mem_cons_self sp0 pre2)
    have hc2 : ∀ sp2 ∈ pre2 ++ sp :: post, ∀ v, alookup sp2.name supplied = some v →
        ∃ w, coerce_param_value sp2.name v sp2 = .ok w :=
      fun sp2 h2 => hc sp2 (List.mem_cons_of_mem sp0 h2)
    have hpre2 : ∀ sp2 ∈ pre2, ¬missingReq sp2 supplied :=
      fun sp2 h2 => hpre sp2 (List.mem_cons_of_mem sp0 h2)
    rw [List.cons_append]
    cases halk : alookup sp0.name supplied with
    | none =>
      have hcond : ¬(sp0.required = true ∧ sp0.default = none) :=
        fun hcontra => h0 ⟨hcontra.1, hcontra.2, halk⟩
      simp only [resolveLoop, halk]
      rw [if_neg hcond]
      cases hd : sp0.default with
      | none => exact ih _ hc2 hm hpre2
      | some d0 => exact ih _ hc2 hm hpre2
    | some v =>
      rcases hc sp0 (List.mem_cons_self sp0 _) v halk with ⟨w, hw⟩
      simp only [resolveLoop, halk, hw]
      exact ih _ hc2 hm hpre2

/-- A successful loop implies no declared parameter was
missing-required. -/
lemma resolveLoop_ok_no_missing (cmdName : String) (supplied : List (String × String))
    (specs : List ParamSpec) : ∀ (acc out : List (String × String)),
    resolveLoop cmdName supplied specs acc = .ok out →
    ∀ sp ∈ specs, ¬missingReq sp supplied := by
  induction specs with
  | nil =>
    intro acc out h sp hsp
    exact absurd hsp (List.not_mem_nil sp)
  | cons sp0 rest ih =>
    intro acc out h sp hsp
    simp only [resolveLoop] at h
    split at h
    · rename_i halk
      split at h
      · exact Except.noConfusion h
      · rename_i hcond
        rcases List.mem_cons.mp hsp with rfl | hmem
        · exact fun hm => hcond ⟨hm.1, hm.2.1⟩
        · split at h
          · exact ih _ _ h sp hmem
          · exact ih _ _ h sp hmem
    · rename_i v halk
      rcases List.mem_cons.mp hsp with rfl | hmem
      · exact fun hm => Option.noConfusion (hm.2.2 ▸ halk)
      · split at h
        · exact ih _ _ h sp hmem
        · exact Except.noConfusion h

/-- With successful coercions and no missing-required parameter the
loop succeeds. -/
lemma resolveLoop_ok_exists (cmdName : String) (supplied : List (String × String))
    (specs : List ParamSpec) : ∀ (acc : List (String × String)),
    (∀ sp ∈ specs, ∀ v, alookup sp.name supplied = some v →
      ∃ w, coerce_param_value sp.name v sp = .ok w) →
    (∀ sp ∈ specs, ¬missingReq sp supplied) →
    ∃ out, resolveLoop cmdName supplied specs acc = .ok out := by
  induction specs with
  | nil =>
    intro acc _ _
    exact ⟨acc, rfl⟩
  | cons sp0 rest ih =>
    intro acc hc hnm
    have hc2 : ∀ sp2 ∈ rest, ∀ v, alookup sp2.name supplied = some v →
        ∃ w, coerce_param_value sp2.name v sp2 = .ok w :=
      fun sp2 h2 => hc sp2 (List.mem_cons_of_mem sp0 h2)
    have hnm2 : ∀ sp2 ∈ rest, ¬missingReq sp2 supplied :=
      fun sp2 h2 => hnm sp2 (List.mem_cons_of_mem sp0 h2)
    cases halk : alookup sp0.name supplied with
    | none =>
      have hcond : ¬(sp0.required = true ∧ sp0.default = none) :=
        fun hcontra => hnm sp0 (List.mem_cons_self sp0 rest) ⟨hcontra.1, hcontra.2, halk⟩
      simp only [resolveLoop, halk]
      rw [if_neg hcond]
      cases hd : sp0.default with
      | none => exact ih _ hc2 hnm2
      | some d0 => exact ih _ hc2 hnm2
    | some v =>
      rcases hc sp0 (List.mem_cons_self sp0 rest) v halk with ⟨w, hw⟩
      simp only [resolveLoop, halk, hw]
      exact ih _ hc2 hnm2

/-- Claim C4 amended: under the proviso that every supplied value for a
declared parameter coerces successfully, resolve_params fails with a
missing-parameter error iff some required parameter without a default
is absent — and it then names the first such parameter in
spec-declaration order; without the proviso a coercion failure on an
earlier declared parameter preempts the missing-required error (see
the counterexample).  It fails with an unexpected-parameter error iff
the supplied set contains an undeclared key and no missing-required
failure occurred: the unexpected check runs only after the whole spec
iteration. -/
theorem c4_resolve_errors (pc : ParsedCommand) (supplied : List (String × String))
    (hc : ∀ sp ∈ pc.param_specs, ∀ v, alookup sp.name supplied = some v →
      ∃ w, coerce_param_value sp.name v sp = .ok w) :
    (∀ n c, resolve_params pc supplied = .error (.missing n c) →
      c = pc.name ∧ ∃ sp ∈ pc.param_specs, sp.name = n ∧ missingReq sp supplied)
    ∧ (∀ pre sp post, pc.param_specs = pre ++ sp :: post → missingReq sp supplied →
        (∀ sp2 ∈ pre, ¬missingReq sp2 supplied) →
        resolve_params pc supplied = .error (.missing sp.name pc.name))
    ∧ (∀ ks c, resolve_params pc supplied = .error (.unexpected ks c) →
        (∀ sp ∈ pc.param_specs, ¬missingReq sp supplied)
        ∧ ∃ k ∈ supplied.map Prod.fst, k ∉ declaredNames pc)
    ∧ ((∀ sp ∈ pc.param_specs, ¬missingReq sp supplied) →
        (∃ k ∈ supplied.map Prod.fst, k ∉ declaredNames pc) →
        ∃ ks, resolve_params pc supplied = .error (.unexpected ks pc.name)) := by
  refine ⟨?_, ?_, ?_, ?_⟩
  · intro n c h
    rw [resolve_params] at h
    split at h
    · rename_i e hloop
      injection h with h1
      rw [h1] at hloop
      exact resolveLoop_missing_shape _ _ _ _ _ _ hloop
    · split at h
      · exact Except.noConfusion h
      · injection h with h1
        exact ParamErr.noConfusion h1
  · intro pre sp post hdecomp hm hpre
    have hloop := resolveLoop_first_missing pc.name supplied sp post pre []
      (hdecomp ▸ hc) hm hpre
    rw [resolve_params, hdecomp, hloop]
  · intro ks c h
    rw [resolve_params] at h
    split at h
    · rename_i e hloop
      injection h with h1
      rw [h1] at hloop
      rcases resolveLoop_error_shape _ _ _ _ _ hloop with ⟨n, hn⟩ | ⟨a, b, hab⟩
        | ⟨a, b, c2, h3⟩
      · exact ParamErr.noConfusion hn
      · exact ParamErr.noConfusion hab
      · exact ParamErr.noConfusion h3
    · rename_i acc hloop
      split at h
      · exact Except.noConfusion h
      · rename_i hne
        refine ⟨resolveLoop_ok_no_missing _ _ _ _ _ hloop, ?_⟩
        rcases hfe : (supplied.map Prod.fst).filter (fun k => k ∉ declaredNames pc) with
          _ | ⟨x, xs⟩
        · exact absurd (by rw [hfe]; rfl) hne
        · have hx : x ∈ (supplied.map Prod.fst).filter (fun k => k ∉ declaredNames pc) := by
            rw [hfe]
            exact List.mem_cons_self x xs
          rcases List.mem_filter.mp hx with ⟨hx1, hx2⟩
          exact ⟨x, hx1, of_decide_eq_true hx2⟩
  · intro hnm hex
    rcases resolveLoop_ok_exists pc.name supplied pc.param_specs [] hc hnm with ⟨out, hloop⟩
    rcases hex with ⟨k, hk1, hk2⟩
    have hkf : k ∈ (supplied.map Prod.fst).filter (fun j => j ∉ declaredNames pc) :=
      List.mem_filter.mpr ⟨hk1, decide_eq_true hk2⟩
    have hne : ((supplied.map Prod.fst).filter (fun j => j ∉ declaredNames pc)).dedup ≠ [] := by
      intro hd
      exact List.ne_nil_of_mem hkf ((List.dedup_eq_nil _).mp hd)
    refine ⟨((supplied.map Prod.fst).filter (fun j => j ∉ declaredNames pc)).dedup, ?_⟩
    rw [resolve_params, hloop]
    simp only [if_neg hne]

/-- Counterexample to C4 as stated: for the two-parameter command (a
required float a, then a required string b with no default), supplying
only an unparseable a makes resolve_params fail with the
invalid-convert error for a — not with the missing-parameter error —
even though b is a required parameter without default absent from the
supplied set.  The missing-iff direction of the claim is false when an
earlier coercion fails. -/
theorem c4_counterexample :
    resolve_params cmdTwoParams [("a", "xyz")]
      = .error (.invalidConvert "a" "xyz" "float")
    ∧ (⟨"b", .pstr, true, none⟩ : ParamSpec) ∈ cmdTwoParams.param_specs
    ∧ (⟨"b", .pstr, true, none⟩ : ParamSpec).required = true
    ∧ (⟨"b", .pstr, true, none⟩ : ParamSpec).default = none
    ∧ alookup "b" [("a", "xyz")] = none
    ∧ (∀ n c, resolve_params cmdTwoParams [("a", "xyz")] ≠ .error (.missing n c)) := by
  have heq : resolve_params cmdTwoParams [("a", "xyz")]
      = .error (.invalidConvert "a" "xyz" "float") := rfl
  refine ⟨heq, by decide, rfl, rfl, rfl, ?_⟩
  intro n c hcontra
  rw [heq] at hcontra
  injection hcontra with h1
  exact ParamErr.noConfusion h1

/-- Witness for C4 (amended): the missing-first part at supplied
{a: 1.5} (b is reported missing) and the unexpected part at supplied
{a: 1.5, b: s, c: 9} (the undeclared c is reported after the spec
iteration). -/
theorem c4_resolve_errors_witness :
    resolve_params cmdTwoParams [("a", "1.5")]
      = .error (.missing "b" "two_params")
    ∧ ∃ ks, resolve_params cmdTwoParams [("a", "1.5"), ("b", "s"), ("c", "9")]
        = .error (.unexpected ks "two_params") := by
  have hc1 : ∀ sp ∈ cmdTwoParams.param_specs, ∀ v,
      alookup sp.name [("a", "1.5")] = some v →
      ∃ w, coerce_param_value sp.name v sp = .ok w := by
    intro sp hsp v hv
    fin_cases hsp
    · have hv2 : some "1.5" = some v := hv
      cases Option.some.inj hv2
      exact ⟨"1.5", rfl⟩
    · exact Option.noConfusion (show (none : Option String) = some v from hv)
  have hc2 : ∀ sp ∈ cmdTwoParams.param_specs, ∀ v,
      alookup sp.name [("a", "1.5"), ("b", "s"), ("c", "9")] = some v →
      ∃ w, coerce_param_value sp.name v sp = .ok w := by
    intro sp hsp v hv
    fin_cases hsp
    · have hv2 : some "1.5" = some v := hv
      cases Option.some.inj hv2
      exact ⟨"1.5", rfl⟩
    · have hv2 : some "s" = some v := hv
      cases Option.some.inj hv2
      exact ⟨"s", rfl⟩
  constructor
  · exact (c4_resolve_errors cmdTwoParams [("a", "1.5")] hc1).2.1
      [⟨"a", .pfloat, true, none⟩] ⟨"b", .pstr, true, none⟩ [] rfl
      ⟨rfl, rfl, rfl⟩ (by decide)
  · exact (c4_resolve_errors cmdTwoParams [("a", "1.5"), ("b", "s"), ("c", "9")] hc2).2.2.2
      (by decide) ⟨"c", by decide, by decide⟩
